import Mathlib

/-!
Verification of the chatbot frontend client-state logic.

The development shallowly embeds the state-management code of the repository:

* the chat context (src/src/contexts/ChatContext.tsx): the per-chat-type
  message lists, the session list, the current session and the loading flag,
  together with the operations sendMessage, loadSessions, loadSessionMessages,
  createNewSession, selectSession, clearMessages, getMessagesForChatType,
  clearMessagesForChatType and deleteSession;
* the axios service layer (services/api.ts): the endpoints of the chat
  service and the 401-handling response interceptor;
* the documents page (src/src/pages/Documents.tsx): handleFileUpload and
  formatFileSize.

Network calls are external to the frontend, so each HTTP round-trip is
modelled as an explicit oracle argument of type Except ApiError α: the
function receives the outcome the backend would have produced and the
embedding describes how the state reacts to it.  Each stateful operation
returns, besides the new state, the outcome observed by its caller
(Except.ok () when the operation returns normally, Except.error e when it
throws), so that error propagation is part of the model.  JavaScript
timestamps (new Date().toISOString()) are passed in as a string argument.
-/

namespace Chatbot

/-- Role of a chat message, from the ChatMessage interface in types.ts. -/
inductive Role
  | user
  | assistant
  deriving DecidableEq, Repr

/-- The two conversation modes, the TypeScript union type general | custom. -/
inductive ChatType
  | general
  | custom
  deriving DecidableEq, Repr

/-- ChatMessage from types.ts.  The optional numeric id is irrelevant to the
state logic and omitted; metadata (Record of string to any, holding the RAG
sources) is kept as an uninterpreted list of strings. -/
structure ChatMessage where
  role : Role
  content : String
  timestamp : String
  metadata : Option (List String) := none
  deriving DecidableEq, Repr

/-- The lastMessage summary embedded in ChatSession in types.ts. -/
structure LastMessageInfo where
  id : Nat
  content : String
  role : String
  created_at : String
  deriving DecidableEq, Repr

/-- ChatSession from types.ts. -/
structure ChatSession where
  id : Nat
  session_name : Option String := none
  chat_type : ChatType
  created_at : String
  updated_at : String
  lastMessage : Option LastMessageInfo := none
  deriving DecidableEq, Repr

/-- Document from types.ts. -/
structure Document where
  id : Nat
  original_name : String
  file_type : String
  file_size : Nat
  created_at : String
  deriving DecidableEq, Repr

/-- ChatRequest from types.ts: the body posted by sendMessage. -/
structure ChatRequest where
  message : String
  sessionId : Option String := none
  chatType : ChatType
  deriving DecidableEq, Repr

/-- The shape of an axios error as the code reads it: error.response?.status
and error.response?.data?.message, each possibly absent. -/
structure ApiError where
  status : Option Nat := none
  dataMessage : Option String := none
  deriving DecidableEq, Repr

/-- The JSON reply of /chat/general and /chat/rag as sendMessage casts it:
a response string, a numeric sessionId, and optional sources.  The code
guards on the truthiness of responseData.sessionId, which for a number means
being nonzero. -/
structure ChatResponse where
  response : String
  sessionId : Nat
  sources : Option (List String) := none
  deriving DecidableEq, Repr

/-- The React state held by ChatProvider in ChatContext.tsx: the legacy
messages list, the sessions list, the selected session, the loading flag and
the two per-chat-type message lists. -/
structure ChatState where
  messages : List ChatMessage := []
  sessions : List ChatSession := []
  currentSession : Option ChatSession := none
  loading : Bool := false
  generalMessages : List ChatMessage := []
  ragMessages : List ChatMessage := []
  deriving DecidableEq, Repr

/-- The initial state of ChatProvider: every useState initialiser. -/
def initialChatState : ChatState := {}

/-- An HTTP request of the axios service layer, identified by method and
path as in services/api.ts. -/
structure ApiCall where
  httpMethod : String
  path : String
  deriving DecidableEq, Repr

/-- chatService.sendGeneralMessage posts to /chat/general. -/
def chatServiceSendGeneralMessage : ApiCall :=
  { httpMethod := "POST", path := "/chat/general" }

/-- chatService.sendRagMessage posts to /chat/rag. -/
def chatServiceSendRagMessage : ApiCall :=
  { httpMethod := "POST", path := "/chat/rag" }

/-- chatService.getSessions issues a GET to /chat/sessions. -/
def chatServiceGetSessions : ApiCall :=
  { httpMethod := "GET", path := "/chat/sessions" }

/-- The HTTP request selected by sendMessage: the ternary
chatType === general ? chatService.sendGeneralMessage : chatService.sendRagMessage. -/
def sendMessageCall (chatType : ChatType) : ApiCall :=
  if chatType = ChatType.general then chatServiceSendGeneralMessage
  else chatServiceSendRagMessage

/-- The request body built inside sendMessage: message, the current session
id rendered to a string when present, and the chat type. -/
def sendMessageRequest (st : ChatState) (message : String) (chatType : ChatType) :
    ChatRequest :=
  { message := message
    sessionId := st.currentSession.map (fun s => toString s.id)
    chatType := chatType }

/-- The user message sendMessage builds at its top. -/
def userMessage (message : String) (now : String) : ChatMessage :=
  { role := Role.user, content := message, timestamp := now }

/-- The assistant message sendMessage builds from the JSON reply. -/
def assistantMessage (resp : ChatResponse) (now : String) : ChatMessage :=
  { role := Role.assistant
    content := resp.response
    timestamp := now
    metadata := resp.sources }

/-- getMessagesForChatType from ChatContext.tsx: general reads the general
list, anything else reads the RAG list. -/
def getMessagesForChatType (st : ChatState) (chatType : ChatType) : List ChatMessage :=
  if chatType = ChatType.general then st.generalMessages else st.ragMessages

/-- clearMessagesForChatType from ChatContext.tsx. -/
def clearMessagesForChatType (st : ChatState) (chatType : ChatType) : ChatState :=
  if chatType = ChatType.general then { st with generalMessages := [] }
  else { st with ragMessages := [] }

/-- clearMessages from ChatContext.tsx: empties the legacy list and both
per-chat-type lists. -/
def clearMessages (st : ChatState) : ChatState :=
  { st with messages := [], generalMessages := [], ragMessages := [] }

/-- createNewSession from ChatContext.tsx: drops the current session and
empties all message lists. -/
def createNewSession (st : ChatState) : ChatState :=
  { st with currentSession := none, messages := [], generalMessages := [], ragMessages := [] }

/-- loadSessions from ChatContext.tsx: on success the sessions list is
replaced by the reply; the catch block only logs, so a failure leaves the
state untouched and the caller sees a normal return. -/
def loadSessions (st : ChatState) (result : Except ApiError (List ChatSession)) :
    ChatState × Except ApiError Unit :=
  match result with
  | Except.ok resp => ({ st with sessions := resp }, Except.ok ())
  | Except.error _ => (st, Except.ok ())

/-- The state of sendMessage after its synchronous prefix and before the HTTP
request is awaited: setLoading(true) has run and the user message has been
appended to the list of the requested chat type. -/
def sendMessagePre (st : ChatState) (message : String) (chatType : ChatType)
    (now : String) : ChatState :=
  let st1 := { st with loading := true }
  if chatType = ChatType.general then
    { st1 with generalMessages := st1.generalMessages ++ [userMessage message now] }
  else
    { st1 with ragMessages := st1.ragMessages ++ [userMessage message now] }

/-- sendMessage from ChatContext.tsx.  It starts from sendMessagePre; on a
successful reply the assistant message is appended to the same list, and when
the reply carries a truthy (nonzero) sessionId the current session is
replaced and loadSessions refreshes the sessions list with its own oracle
outcome; on failure the catch block pops the last element of the list the
user message was pushed to (prev.slice(0, -1)); the finally block resets
loading.  The catch block does not re-throw, so the caller always observes a
normal return. -/
def sendMessage (st : ChatState) (message : String) (chatType : ChatType)
    (now : String) (result : Except ApiError ChatResponse)
    (sessionsResult : Except ApiError (List ChatSession)) :
    ChatState × Except ApiError Unit :=
  let st1 := sendMessagePre st message chatType now
  match result with
  | Except.ok resp =>
      let st2 :=
        if chatType = ChatType.general then
          { st1 with generalMessages := st1.generalMessages ++ [assistantMessage resp now] }
        else
          { st1 with ragMessages := st1.ragMessages ++ [assistantMessage resp now] }
      let newSession : ChatSession :=
        { id := resp.sessionId, chat_type := chatType,
          created_at := now, updated_at := now }
      let st3 :=
        if resp.sessionId ≠ 0 then
          (loadSessions { st2 with currentSession := some newSession } sessionsResult).1
        else st2
      ({ st3 with loading := false }, Except.ok ())
  | Except.error _ =>
      let st2 :=
        if chatType = ChatType.general then
          { st1 with generalMessages := st1.generalMessages.dropLast }
        else
          { st1 with ragMessages := st1.ragMessages.dropLast }
      ({ st2 with loading := false }, Except.ok ())

/-- loadSessionMessages from ChatContext.tsx.  On success: the chat type is
the one passed in, or failing that the chat_type of the session found in the
sessions list; all message lists are cleared, the list of the resolved chat
type (when any) receives the fetched messages, and the legacy messages list
is set for backward compatibility.  A failure only logs. -/
def loadSessionMessages (st : ChatState) (sessionId : Nat)
    (chatType : Option ChatType) (result : Except ApiError (List ChatMessage)) :
    ChatState × Except ApiError Unit :=
  match result with
  | Except.ok msgs =>
      let sessionChatType : Option ChatType :=
        match chatType with
        | some ct => some ct
        | none => (st.sessions.find? (fun s => s.id == sessionId)).map (fun s => s.chat_type)
      let st1 := { st with messages := [], generalMessages := [], ragMessages := [] }
      let st2 :=
        match sessionChatType with
        | some ChatType.general => { st1 with generalMessages := msgs }
        | some ChatType.custom => { st1 with ragMessages := msgs }
        | none => st1
      ({ st2 with messages := msgs }, Except.ok ())
  | Except.error _ => (st, Except.ok ())

/-- selectSession from ChatContext.tsx: records the session as current, then
loads its messages passing the session chat type explicitly. -/
def selectSession (st : ChatState) (session : ChatSession)
    (result : Except ApiError (List ChatMessage)) :
    ChatState × Except ApiError Unit :=
  loadSessionMessages { st with currentSession := some session }
    session.id (some session.chat_type) result

/-- deleteSession from ChatContext.tsx.  On success the session is filtered
out of the sessions list, and when the deleted id is the current session id
the current session and every message list are cleared.  The catch block
logs and re-throws, so a failure leaves the state untouched and the caller
observes the error. -/
def deleteSession (st : ChatState) (sessionId : Nat)
    (result : Except ApiError Unit) : ChatState × Except ApiError Unit :=
  match result with
  | Except.ok _ =>
      let st1 := { st with sessions := st.sessions.filter (fun s => s.id != sessionId) }
      let st2 :=
        match st.currentSession with
        | some cs =>
            if cs.id = sessionId then
              { st1 with
                  currentSession := none
                  messages := []
                  generalMessages := []
                  ragMessages := [] }
            else st1
        | none => st1
      (st2, Except.ok ())
  | Except.error e => (st, Except.error e)

/-- The browser facilities the response interceptor touches: localStorage as
an association list and window.location.href. -/
structure BrowserState where
  localStorage : List (String × String)
  locationHref : String
  deriving DecidableEq, Repr

/-- localStorage.removeItem: drops every entry under the given key. -/
def localStorageRemoveItem (store : List (String × String)) (key : String) :
    List (String × String) :=
  store.filter (fun kv => kv.fst != key)

/-- The rejection branch of the axios response interceptor in
services/api.ts: on a 401 it removes the token and user entries from
localStorage and redirects to /login; in every case it returns
Promise.reject(error), so the error keeps propagating. -/
def responseInterceptorRejected (bs : BrowserState) (e : ApiError) :
    BrowserState × Except ApiError Unit :=
  if e.status = some 401 then
    ({ localStorage :=
         localStorageRemoveItem (localStorageRemoveItem bs.localStorage ("token")) ("user"),
       locationHref := "/login" }, Except.error e)
  else
    (bs, Except.error e)

/-- The file fields handleFileUpload reads: the MIME type and the size in
bytes. -/
structure DocFile where
  mimeType : String
  size : Nat
  deriving DecidableEq, Repr

/-- The React state of the Documents page that handleFileUpload touches. -/
structure DocumentsState where
  documents : List Document := []
  uploading : Bool := false
  error : String := ""
  deriving DecidableEq, Repr

/-- The allowedTypes list of handleFileUpload in Documents.tsx. -/
def allowedTypes : List String :=
  ["application/pdf", "text/plain", "text/markdown",
   "application/vnd.openxmlformats-officedocument.wordprocessingml.document"]

/-- handleFileUpload from Documents.tsx.  The file argument is
e.target.files?.[0] (none when no file was selected), the oracle is the
outcome of documentService.uploadDocument, and the returned Bool records
whether the upload request was issued.  A disallowed MIME type or a size
above 10 MB sets an error message and returns before any request; otherwise
the upload runs with uploading set and the error cleared, a successful reply
is prepended to the documents list, and a failure stores the server message
or a fallback. -/
def handleFileUpload (st : DocumentsState) (file : Option DocFile)
    (uploadResult : Except ApiError Document) : DocumentsState × Bool :=
  match file with
  | none => (st, false)
  | some f =>
      if ¬ allowedTypes.contains f.mimeType then
        ({ st with error := "Please upload a PDF, TXT, MD, or DOCX file" }, false)
      else if f.size > 10 * 1024 * 1024 then
        ({ st with error := "File size must be less than 10MB" }, false)
      else
        let st1 := { st with uploading := true, error := "" }
        match uploadResult with
        | Except.ok doc =>
            ({ st1 with
                documents := doc :: st1.documents
                error := ""
                uploading := false }, true)
        | Except.error err =>
            ({ st1 with
                error := err.dataMessage.getD ("Upload failed")
                uploading := false }, true)

/-- The unit names array of formatFileSize in Documents.tsx. -/
def sizes : List String := ["Bytes", "KB", "MB", "GB"]

/-- The unit index of formatFileSize, Math.floor(Math.log(bytes) /
Math.log(1024)), modelled in exact real arithmetic; for every bytes this
floor of the base-1024 logarithm equals Nat.log 1024 bytes (the lemma
fileSizeIndex_eq_floor below proves the agreement), which keeps the
definition computable. -/
def fileSizeIndex (bytes : Nat) : Nat := Nat.log 1024 bytes

/-- Decimal rendering of hundredths, modelling how JavaScript prints
parseFloat(x.toFixed(2)): the integer part, then a fractional part with
trailing zeros stripped. -/
def hundredthsToString (m : Nat) : String :=
  let intPart := toString (m / 100)
  let frac := m % 100
  if frac = 0 then intPart
  else if frac % 10 = 0 then intPart ++ "." ++ toString (frac / 10)
  else if frac < 10 then intPart ++ ".0" ++ toString frac
  else intPart ++ "." ++ toString frac

/-- formatFileSize from Documents.tsx.  Zero bytes short-circuits to the
string 0 Bytes; otherwise the byte count is scaled by 1024 to the power of
the unit index, rounded to two decimals (the float arithmetic is modelled
exactly over the rationals, rounding to nearest hundredth), and joined with
the unit name; the array access sizes[i] is modelled by List.get?, whose
none result stands for the out-of-bounds undefined. -/
def formatFileSize (bytes : Nat) : Option String :=
  if bytes = 0 then some "0 Bytes"
  else
    let i := fileSizeIndex bytes
    let scaledHundredths : Nat := (bytes * 100 + 1024 ^ i / 2) / 1024 ^ i
    (sizes.get? i).map (fun u => hundredthsToString scaledHundredths ++ " " ++ u)

/-- The chat type other than the given one; notation for the frame
properties of the per-chat-type message store. -/
def otherChatType (chatType : ChatType) : ChatType :=
  match chatType with
  | ChatType.general => ChatType.custom
  | ChatType.custom => ChatType.general

lemma fileSizeIndex_eq_floor (bytes : Nat) :
    ⌊Real.log bytes / Real.log 1024⌋ = fileSizeIndex bytes := by
  have h : ((1024 : ℝ)) = ((1024 : ℕ) : ℝ) := by norm_num
  rw [Real.log_div_log, h, Real.floor_logb_natCast (by positivity), Int.log_natCast]
  rfl

lemma loadSessions_fst_generalMessages (st : ChatState)
    (r : Except ApiError (List ChatSession)) :
    ((loadSessions st r).1).generalMessages = st.generalMessages := by
  cases r <;> rfl

lemma loadSessions_fst_ragMessages (st : ChatState)
    (r : Except ApiError (List ChatSession)) :
    ((loadSessions st r).1).ragMessages = st.ragMessages := by
  cases r <;> rfl

lemma loadSessions_fst_loading (st : ChatState)
    (r : Except ApiError (List ChatSession)) :
    ((loadSessions st r).1).loading = st.loading := by
  cases r <;> rfl

/-- Claim C1: sendMessage appends a user message, with role user and content
equal to the sent text, to the message list of the requested chat type before
the HTTP request is awaited (the state sendMessagePre), and when the request
fails the catch block removes that message again, so the list of that chat
type ends equal to its value before the call. -/
theorem sendMessage_optimistic_append_rollback
    (st : ChatState) (message now : String) (chatType : ChatType)
    (e : ApiError) (sessionsResult : Except ApiError (List ChatSession)) :
    (userMessage message now).role = Role.user ∧
    (userMessage message now).content = message ∧
    getMessagesForChatType (sendMessagePre st message chatType now) chatType
      = getMessagesForChatType st chatType ++ [userMessage message now] ∧
    getMessagesForChatType
      (sendMessage st message chatType now (Except.error e) sessionsResult).1 chatType
      = getMessagesForChatType st chatType := by
  cases chatType <;>
    simp [userMessage, sendMessage, sendMessagePre, getMessagesForChatType]

/-- Claim C2: on a 401 response the interceptor drops the token and user
entries from localStorage (keeping every other entry), redirects to /login,
and still rejects with the original error; on any other status it rejects
with the error and leaves the browser state untouched. -/
theorem responseInterceptor_401_clears_and_redirects
    (bs : BrowserState) (e : ApiError) :
    (e.status = some 401 →
      ((responseInterceptorRejected bs e).1.locationHref = "/login" ∧
       (∀ kv : String × String,
          kv ∈ (responseInterceptorRejected bs e).1.localStorage ↔
            (kv ∈ bs.localStorage ∧ kv.1 ≠ "token" ∧ kv.1 ≠ "user")) ∧
       (responseInterceptorRejected bs e).2 = Except.error e)) ∧
    (e.status ≠ some 401 →
      responseInterceptorRejected bs e = (bs, Except.error e)) := by
  constructor
  · intro h
    refine ⟨by simp [responseInterceptorRejected, h], ?_, by simp [responseInterceptorRejected, h]⟩
    intro kv
    simp only [responseInterceptorRejected, h, localStorageRemoveItem, if_pos,
      List.mem_filter, bne_iff_ne, ne_eq, decide_not, Bool.and_eq_true,
      decide_eq_true_eq, Bool.not_eq_true']
    constructor
    · rintro ⟨⟨hm, ht⟩, hu⟩
      exact ⟨hm, by simpa using ht, by simpa using hu⟩
    · rintro ⟨hm, ht, hu⟩
      exact ⟨⟨hm, by simpa using ht⟩, by simpa using hu⟩
  · intro h
    simp [responseInterceptorRejected, h]

theorem responseInterceptor_401_clears_and_redirects_witness :
    ((responseInterceptorRejected
        { localStorage := [("token", "t"), ("user", "u"), ("theme", "d")],
          locationHref := "/chat" }
        { status := some 401 }).1.locationHref = "/login" ∧
      (("theme", "d") ∈ (responseInterceptorRejected
        { localStorage := [("token", "t"), ("user", "u"), ("theme", "d")],
          locationHref := "/chat" }
        { status := some 401 }).1.localStorage ↔
        ((("theme", "d") ∈ ([("token", "t"), ("user", "u"), ("theme", "d")] :
            List (String × String))) ∧ ("theme", "d").1 ≠ "token" ∧
            ("theme", "d").1 ≠ "user"))) ∧
    responseInterceptorRejected
        { localStorage := [("theme", "d")], locationHref := "/chat" }
        { status := some 500 }
      = ({ localStorage := [("theme", "d")], locationHref := "/chat" },
          Except.error { status := some 500 }) := by
  constructor
  · have h := responseInterceptor_401_clears_and_redirects
      { localStorage := [("token", "t"), ("user", "u"), ("theme", "d")],
        locationHref := "/chat" }
      { status := some 401 }
    exact ⟨(h.1 rfl).1, (h.1 rfl).2.1 ("theme", "d")⟩
  · exact (responseInterceptor_401_clears_and_redirects
      { localStorage := [("theme", "d")], locationHref := "/chat" }
      { status := some 500 }).2 (by decide)

lemma sendMessage_preserves_other_list (st : ChatState) (message now : String)
    (chatType : ChatType) (result : Except ApiError ChatResponse)
    (sessionsResult : Except ApiError (List ChatSession)) :
    getMessagesForChatType
        (sendMessage st message chatType now result sessionsResult).1
        (otherChatType chatType)
      = getMessagesForChatType st (otherChatType chatType) := by
  cases chatType <;> cases result <;>
    simp [sendMessage, sendMessagePre, getMessagesForChatType, otherChatType] <;>
    split <;>
    simp [loadSessions_fst_generalMessages, loadSessions_fst_ragMessages]

/-- Claim C3: the message store is keyed by chat mode.  getMessagesForChatType
reads the general list for general and the RAG list for custom, and both
sendMessage and clearMessagesForChatType on one chat type leave the message
list of the other chat type unchanged, whatever the outcome of the HTTP
call. -/
theorem messageStore_keyed_by_chat_type
    (st : ChatState) (message now : String) (chatType : ChatType)
    (result : Except ApiError ChatResponse)
    (sessionsResult : Except ApiError (List ChatSession)) :
    getMessagesForChatType st ChatType.general = st.generalMessages ∧
    getMessagesForChatType st ChatType.custom = st.ragMessages ∧
    getMessagesForChatType
        (sendMessage st message chatType now result sessionsResult).1
        (otherChatType chatType)
      = getMessagesForChatType st (otherChatType chatType) ∧
    getMessagesForChatType (clearMessagesForChatType st chatType)
        (otherChatType chatType)
      = getMessagesForChatType st (otherChatType chatType) := by
  refine ⟨rfl, rfl, sendMessage_preserves_other_list st message now chatType
    result sessionsResult, ?_⟩
  cases chatType <;> simp [clearMessagesForChatType, getMessagesForChatType, otherChatType]

lemma sendMessage_ok_appends (st : ChatState) (message now : String)
    (chatType : ChatType) (resp : ChatResponse)
    (sessionsResult : Except ApiError (List ChatSession)) :
    getMessagesForChatType
        (sendMessage st message chatType now (Except.ok resp) sessionsResult).1
        chatType
      = getMessagesForChatType st chatType
          ++ [userMessage message now, assistantMessage resp now] := by
  cases chatType <;>
    simp [sendMessage, sendMessagePre, getMessagesForChatType] <;>
    split <;>
    simp [loadSessions_fst_generalMessages, loadSessions_fst_ragMessages]

/-- Claim C4: sendMessage forwards the message as a POST to /chat/general
when the chat type is general and as a POST to /chat/rag otherwise, and on
success the response field of the JSON reply becomes an assistant message
appended (after the user message) to the message list of the same chat
type. -/
theorem sendMessage_routes_and_appends_response
    (st : ChatState) (message now : String) (chatType : ChatType)
    (resp : ChatResponse) (sessionsResult : Except ApiError (List ChatSession)) :
    (sendMessageCall ChatType.general).httpMethod = "POST" ∧
    (sendMessageCall ChatType.general).path = "/chat/general" ∧
    (∀ ct : ChatType, ct ≠ ChatType.general →
      ((sendMessageCall ct).httpMethod = "POST" ∧
       (sendMessageCall ct).path = "/chat/rag")) ∧
    getMessagesForChatType
        (sendMessage st message chatType now (Except.ok resp) sessionsResult).1
        chatType
      = getMessagesForChatType st chatType
          ++ [userMessage message now, assistantMessage resp now] ∧
    (assistantMessage resp now).role = Role.assistant ∧
    (assistantMessage resp now).content = resp.response := by
  refine ⟨rfl, rfl, ?_, sendMessage_ok_appends st message now chatType resp
    sessionsResult, rfl, rfl⟩
  intro ct hct
  cases ct
  · exact absurd rfl hct
  · exact ⟨rfl, rfl⟩

theorem sendMessage_routes_and_appends_response_witness :
    (sendMessageCall ChatType.custom).httpMethod = "POST" ∧
    (sendMessageCall ChatType.custom).path = "/chat/rag" ∧
    getMessagesForChatType
        (sendMessage initialChatState ("hi") ChatType.custom ("t0")
          (Except.ok { response := "yo", sessionId := 0 }) (Except.ok [])).1
        ChatType.custom
      = [userMessage ("hi") ("t0"),
         assistantMessage { response := "yo", sessionId := 0 } ("t0")] := by
  have h := sendMessage_routes_and_appends_response initialChatState ("hi") ("t0")
    ChatType.custom { response := "yo", sessionId := 0 } (Except.ok [])
  refine ⟨(h.2.2.1 ChatType.custom (by decide)).1,
    (h.2.2.1 ChatType.custom (by decide)).2, ?_⟩
  have h4 := h.2.2.2.1
  simpa [initialChatState, getMessagesForChatType] using h4

/-- Claim C5: the loading flag lifecycle.  The provider starts with loading
false; sendMessage sets it to true before the HTTP request is awaited (the
state sendMessagePre) and its finally block resets it to false whatever the
outcome; every other chat-state operation leaves the flag as it found it, so
outside a sendMessage call the flag stays false. -/
theorem loading_flag_lifecycle
    (st : ChatState) (message now : String) (chatType : ChatType)
    (result : Except ApiError ChatResponse)
    (sessionsResult sessionsR : Except ApiError (List ChatSession))
    (sessionId : Nat) (maybeChatType : Option ChatType)
    (messagesR : Except ApiError (List ChatMessage))
    (session : ChatSession) (deleteR : Except ApiError Unit) :
    initialChatState.loading = false ∧
    (sendMessagePre st message chatType now).loading = true ∧
    ((sendMessage st message chatType now result sessionsResult).1).loading = false ∧
    ((loadSessions st sessionsR).1).loading = st.loading ∧
    ((loadSessionMessages st sessionId maybeChatType messagesR).1).loading
      = st.loading ∧
    ((selectSession st session messagesR).1).loading = st.loading ∧
    ((deleteSession st sessionId deleteR).1).loading = st.loading ∧
    (createNewSession st).loading = st.loading ∧
    (clearMessages st).loading = st.loading ∧
    (clearMessagesForChatType st chatType).loading = st.loading := by
  refine ⟨rfl, ?_, ?_, loadSessions_fst_loading st sessionsR, ?_, ?_, ?_, rfl, rfl, ?_⟩
  · cases chatType <;> rfl
  · cases chatType <;> cases result <;>
      simp [sendMessage, sendMessagePre]
  · cases messagesR with
    | ok msgs =>
        simp only [loadSessionMessages]
        split <;> rfl
    | error e => rfl
  · cases messagesR with
    | ok msgs =>
        simp only [selectSession, loadSessionMessages]
        split <;> rfl
    | error e => rfl
  · cases deleteR with
    | ok u =>
        simp only [deleteSession]
        split
        · split <;> rfl
        · rfl
    | error e => rfl
  · cases chatType <;> rfl

/-- Claim C6 counterexample: deleteSession does propagate a failed HTTP call
to its caller.  At the initial state, deleting session 1 when the backend
answers with a 500 error makes the operation end in that error rather than
in a normal return, contradicting the claim that no chat-state operation
lets a failure escape. -/
theorem deleteSession_error_propagates_counterexample :
    (deleteSession initialChatState 1
        (Except.error { status := some 500 })).2
      = Except.error { status := some 500 } ∧
    (deleteSession initialChatState 1
        (Except.error { status := some 500 })).2
      ≠ Except.ok () := by
  constructor
  · rfl
  · intro h
    simp [deleteSession] at h

/-- Claim C6 as amended: every HTTP call of the chat-state operations is
wrapped in try/catch; sendMessage, loadSessions and loadSessionMessages
swallow the failure and return normally, while deleteSession catches, logs
and re-throws it; and a failed loadSessions or loadSessionMessages leaves
the whole state, in particular the sessions list and all message lists,
unchanged. -/
theorem chat_ops_error_handling_amended
    (st : ChatState) (message now : String) (chatType : ChatType)
    (result : Except ApiError ChatResponse)
    (sessionsResult sessionsR : Except ApiError (List ChatSession))
    (e : ApiError) (sessionId : Nat) (maybeChatType : Option ChatType)
    (messagesR : Except ApiError (List ChatMessage)) :
    (sendMessage st message chatType now result sessionsResult).2
      = Except.ok () ∧
    (loadSessions st sessionsR).2 = Except.ok () ∧
    (loadSessionMessages st sessionId maybeChatType messagesR).2
      = Except.ok () ∧
    (deleteSession st sessionId (Except.ok ())).2 = Except.ok () ∧
    (deleteSession st sessionId (Except.error e)).2 = Except.error e ∧
    (loadSessions st (Except.error e)).1 = st ∧
    (loadSessionMessages st sessionId maybeChatType (Except.error e)).1 = st := by
  refine ⟨?_, ?_, ?_, rfl, rfl, rfl, rfl⟩
  · cases chatType <;> cases result <;> simp [sendMessage, sendMessagePre]
  · cases sessionsR <;> rfl
  · cases messagesR <;> rfl

/-- Claim C7: selectSession records the session as the current one and, on a
successful fetch, installs the fetched messages as the list of the chat type
of that session while the list of the other chat type is cleared, so that
afterwards at most one of the two per-mode lists is non-empty. -/
theorem selectSession_installs_messages
    (st : ChatState) (session : ChatSession) (msgs : List ChatMessage) :
    ((selectSession st session (Except.ok msgs)).1).currentSession
      = some session ∧
    getMessagesForChatType (selectSession st session (Except.ok msgs)).1
        session.chat_type = msgs ∧
    getMessagesForChatType (selectSession st session (Except.ok msgs)).1
        (otherChatType session.chat_type) = [] ∧
    (((selectSession st session (Except.ok msgs)).1).generalMessages = [] ∨
      ((selectSession st session (Except.ok msgs)).1).ragMessages = []) := by
  cases h : session.chat_type with
  | general =>
      refine ⟨?_, ?_, ?_, Or.inr ?_⟩ <;>
        simp [selectSession, loadSessionMessages, getMessagesForChatType,
          otherChatType, h]
  | custom =>
      refine ⟨?_, ?_, ?_, Or.inl ?_⟩ <;>
        simp [selectSession, loadSessionMessages, getMessagesForChatType,
          otherChatType, h]

/-- Claim C8: handleFileUpload rejects a selected file whose MIME type is not
one of the four allowed ones, or whose size exceeds 10*1024*1024 bytes,
without issuing an upload request: it only sets the corresponding error
message, leaving the documents list unchanged; an accepted file is uploaded,
and on success the returned document is prepended to the front of the
documents list. -/
theorem handleFileUpload_validates_and_prepends
    (st : DocumentsState) (f : DocFile) (uploadResult : Except ApiError Document)
    (doc : Document) :
    (f.mimeType ∉ allowedTypes →
      ((handleFileUpload st (some f) uploadResult).1.documents = st.documents ∧
       (handleFileUpload st (some f) uploadResult).1.error
         = "Please upload a PDF, TXT, MD, or DOCX file" ∧
       (handleFileUpload st (some f) uploadResult).2 = false)) ∧
    (f.mimeType ∈ allowedTypes → f.size > 10 * 1024 * 1024 →
      ((handleFileUpload st (some f) uploadResult).1.documents = st.documents ∧
       (handleFileUpload st (some f) uploadResult).1.error
         = "File size must be less than 10MB" ∧
       (handleFileUpload st (some f) uploadResult).2 = false)) ∧
    (f.mimeType ∈ allowedTypes → f.size ≤ 10 * 1024 * 1024 →
      ((handleFileUpload st (some f) (Except.ok doc)).1.documents
         = doc :: st.documents ∧
       (handleFileUpload st (some f) (Except.ok doc)).2 = true)) := by
  refine ⟨?_, ?_, ?_⟩
  · intro h
    simp [handleFileUpload, h]
  · intro h hsize
    simp [handleFileUpload, h, hsize]
  · intro h hsize
    simp [handleFileUpload, h, Nat.not_lt.mpr hsize]

theorem handleFileUpload_validates_and_prepends_witness :
    ((handleFileUpload {} (some ⟨("image/png"), 5⟩)
        (Except.error {})).1.documents = [] ∧
     (handleFileUpload {} (some ⟨("image/png"), 5⟩)
        (Except.error {})).2 = false) ∧
    ((handleFileUpload {} (some ⟨("text/plain"), 10485761⟩)
        (Except.error {})).1.documents = [] ∧
     (handleFileUpload {} (some ⟨("text/plain"), 10485761⟩)
        (Except.error {})).2 = false) ∧
    (handleFileUpload {} (some ⟨("text/plain"), 5⟩)
        (Except.ok ⟨3, ("a"), ("txt"), 5, ("c")⟩)).1.documents
      = [⟨3, ("a"), ("txt"), 5, ("c")⟩] := by
  have h1 := handleFileUpload_validates_and_prepends {}
    ⟨("image/png"), 5⟩ (Except.error {}) ⟨3, ("a"), ("txt"), 5, ("c")⟩
  have h2 := handleFileUpload_validates_and_prepends {}
    ⟨("text/plain"), 10485761⟩ (Except.error {}) ⟨3, ("a"), ("txt"), 5, ("c")⟩
  have h3 := handleFileUpload_validates_and_prepends {}
    ⟨("text/plain"), 5⟩ (Except.error {}) ⟨3, ("a"), ("txt"), 5, ("c")⟩
  refine ⟨⟨(h1.1 (by decide)).1, (h1.1 (by decide)).2.2⟩,
    ⟨(h2.2.1 (by decide) (by decide)).1, (h2.2.1 (by decide) (by decide)).2.2⟩,
    (h3.2.2 (by decide) (by decide)).1⟩

/-- Claim C9: formatFileSize 0 returns the string 0 Bytes; the unit index
Math.floor(Math.log(bytes) / Math.log(1024)), taken in exact real
arithmetic, equals fileSizeIndex bytes, and for every byte count from 1 up
to (but excluding) 1024 to the fourth power it lies in the range 0..3, so
the access into the four-element unit array is in bounds; from 1024 to the
fourth power onwards the index is at least 4 and the access is out of
bounds. -/
theorem formatFileSize_index_in_bounds :
    formatFileSize 0 = some "0 Bytes" ∧
    (∀ bytes : Nat, ⌊Real.log bytes / Real.log 1024⌋ = fileSizeIndex bytes) ∧
    (∀ bytes : Nat, 1 ≤ bytes → bytes < 1024 ^ 4 →
      (fileSizeIndex bytes < 4 ∧
       (sizes.get? (fileSizeIndex bytes)).isSome = true)) ∧
    (∀ bytes : Nat, 1024 ^ 4 ≤ bytes →
      (4 ≤ fileSizeIndex bytes ∧ sizes.get? (fileSizeIndex bytes) = none)) := by
  refine ⟨rfl, fileSizeIndex_eq_floor, ?_, ?_⟩
  · intro bytes h1 h2
    have hlt : fileSizeIndex bytes < 4 :=
      Nat.log_lt_of_lt_pow (Nat.one_le_iff_ne_zero.mp h1) h2
    have hlen : fileSizeIndex bytes < sizes.length := hlt
    exact ⟨hlt, by rw [List.get?_eq_get hlen]; rfl⟩
  · intro bytes h
    have hb : bytes ≠ 0 := by
      intro h0
      rw [h0] at h
      exact absurd h (by norm_num)
    have hle : 4 ≤ fileSizeIndex bytes :=
      (Nat.pow_le_iff_le_log (by norm_num) hb).mp h
    exact ⟨hle, List.get?_eq_none.mpr hle⟩

theorem formatFileSize_index_in_bounds_witness :
    formatFileSize 0 = some "0 Bytes" ∧
    fileSizeIndex 5 < 4 ∧
    4 ≤ fileSizeIndex (1024 ^ 4) := by
  refine ⟨formatFileSize_index_in_bounds.1,
    (formatFileSize_index_in_bounds.2.2.1 5 (by norm_num) (by norm_num)).1,
    (formatFileSize_index_in_bounds.2.2.2 (1024 ^ 4) (le_refl _)).1⟩

/-- Claim C10: after a successful deleteSession the sessions list holds
exactly the previous sessions whose id differs from the deleted one; the
current session and all three message lists are cleared exactly when the
deleted id is the current session id, and are left unchanged otherwise (in
particular when no session is current); a failed delete leaves the whole
state unchanged and re-throws the error to the caller. -/
theorem deleteSession_removes_and_conditionally_clears
    (st : ChatState) (sessionId : Nat) (e : ApiError) (cs : ChatSession) :
    (∀ s : ChatSession,
      s ∈ ((deleteSession st sessionId (Except.ok ())).1).sessions ↔
        (s ∈ st.sessions ∧ s.id ≠ sessionId)) ∧
    (st.currentSession = some cs → cs.id = sessionId →
      (((deleteSession st sessionId (Except.ok ())).1).currentSession = none ∧
       ((deleteSession st sessionId (Except.ok ())).1).messages = [] ∧
       ((deleteSession st sessionId (Except.ok ())).1).generalMessages = [] ∧
       ((deleteSession st sessionId (Except.ok ())).1).ragMessages = [])) ∧
    (st.currentSession = some cs → cs.id ≠ sessionId →
      (((deleteSession st sessionId (Except.ok ())).1).currentSession
          = st.currentSession ∧
       ((deleteSession st sessionId (Except.ok ())).1).messages = st.messages ∧
       ((deleteSession st sessionId (Except.ok ())).1).generalMessages
          = st.generalMessages ∧
       ((deleteSession st sessionId (Except.ok ())).1).ragMessages
          = st.ragMessages)) ∧
    (st.currentSession = none →
      (((deleteSession st sessionId (Except.ok ())).1).currentSession = none ∧
       ((deleteSession st sessionId (Except.ok ())).1).messages = st.messages ∧
       ((deleteSession st sessionId (Except.ok ())).1).generalMessages
          = st.generalMessages ∧
       ((deleteSession st sessionId (Except.ok ())).1).ragMessages
          = st.ragMessages)) ∧
    deleteSession st sessionId (Except.error e) = (st, Except.error e) := by
  refine ⟨?_, ?_, ?_, ?_, rfl⟩
  · intro s
    have hs : ((deleteSession st sessionId (Except.ok ())).1).sessions
        = st.sessions.filter (fun s => s.id != sessionId) := by
      simp only [deleteSession]
      split
      · split <;> rfl
      · rfl
    rw [hs]
    simp [List.mem_filter]
  · intro hcur hid
    simp [deleteSession, hcur, hid]
  · intro hcur hid
    simp [deleteSession, hcur, hid]
  · intro hcur
    simp [deleteSession, hcur]

theorem deleteSession_removes_and_conditionally_clears_witness :
    (((deleteSession
        { sessions := [⟨1, none, ChatType.general, ("a"), ("b"), none⟩]
          currentSession := some ⟨1, none, ChatType.general, ("a"), ("b"), none⟩
          generalMessages := [⟨Role.user, ("hi"), ("t"), none⟩] }
        1 (Except.ok ())).1).currentSession = none ∧
     ((deleteSession
        { sessions := [⟨1, none, ChatType.general, ("a"), ("b"), none⟩]
          currentSession := some ⟨1, none, ChatType.general, ("a"), ("b"), none⟩
          generalMessages := [⟨Role.user, ("hi"), ("t"), none⟩] }
        1 (Except.ok ())).1).generalMessages = []) ∧
    ((⟨1, none, ChatType.general, ("a"), ("b"), none⟩ : ChatSession)
        ∈ ((deleteSession
        { sessions := [⟨1, none, ChatType.general, ("a"), ("b"), none⟩]
          currentSession := some ⟨1, none, ChatType.general, ("a"), ("b"), none⟩
          generalMessages := [⟨Role.user, ("hi"), ("t"), none⟩] }
        1 (Except.ok ())).1).sessions ↔
      ((⟨1, none, ChatType.general, ("a"), ("b"), none⟩ : ChatSession)
          ∈ [(⟨1, none, ChatType.general, ("a"), ("b"), none⟩ : ChatSession)] ∧
        (1 : Nat) ≠ 1)) := by
  have h := deleteSession_removes_and_conditionally_clears
    { sessions := [⟨1, none, ChatType.general, ("a"), ("b"), none⟩]
      currentSession := some ⟨1, none, ChatType.general, ("a"), ("b"), none⟩
      generalMessages := [⟨Role.user, ("hi"), ("t"), none⟩] }
    1 {} ⟨1, none, ChatType.general, ("a"), ("b"), none⟩
  exact ⟨⟨(h.2.1 rfl rfl).1, (h.2.1 rfl rfl).2.2.1⟩,
    h.1 ⟨1, none, ChatType.general, ("a"), ("b"), none⟩⟩
